import Mathlib

/-!
Shallow embedding of the WebNotes application (src/main.py, src/database.py).

Conventions of the embedding:
  * timestamps are natural numbers (seconds); `now` is passed explicitly where
    the code calls `datetime.now()` / `CURRENT_TIMESTAMP`;
  * the Redis store is an association list from keys to (value, absolute
    expiry time); a key is visible only while `now <` its expiry, which
    models Redis TTL expiry;
  * the relational store is a record of lists with explicit id counters
    (modelling SERIAL primary keys);
  * bcrypt hashing/verification is an external library; it is passed in as
    an abstract function, exactly as the spec treats it (a pure function pair);
  * `uuid.uuid4()` is modelled by passing the fresh session id as an argument;
  * HTTP handlers return a result value plus the new application state;
    raising `HTTPException(s, d)` is modelled by an error constructor
    carrying the status `s` and detail `d`.
-/

namespace WebNotes

/-- A row of the `users` table (id SERIAL, username UNIQUE, password_hash). -/
structure User where
  id : Nat
  username : String
  password_hash : String
deriving Repr, DecidableEq

/-- A row of the `notes` table. -/
structure Note where
  id : Nat
  title : String
  text : String
  user_id : Nat
  created_at : Nat
  updated_at : Nat
deriving Repr, DecidableEq

/-- The projection of a note returned by `_get_notes_from_db` (the SELECT
drops the `user_id` column). -/
structure NoteView where
  id : Nat
  title : String
  text : String
  created_at : Nat
  updated_at : Nat
deriving Repr, DecidableEq

/-- The JSON session record stored under `session:{session_id}`. -/
structure SessionData where
  user_id : Nat
  username : String
  created_at : Nat
  last_activity : Nat
deriving Repr, DecidableEq

/-- The JSON user record cached under `user:{username}` by `login`. -/
structure CachedUser where
  id : Nat
  username : String
  password_hash : String
deriving Repr, DecidableEq

/-- A Redis-like keyed store: association list of (key, value, absolute
expiry time). -/
abbrev KVStore (α β : Type) := List (α × β × Nat)

/-- Redis GET: the first binding of the key, visible only before its expiry. -/
def kvGet [DecidableEq α] (st : KVStore α β) (k : α) (now : Nat) : Option β :=
  match st.find? (fun e => decide (e.1 = k)) with
  | some (_, v, exp) => if now < exp then some v else none
  | none => none

/-- Redis SETEX: bind the key to the value with the given absolute expiry. -/
def kvSetex [DecidableEq α] (st : KVStore α β) (k : α) (v : β) (exp : Nat) :
    KVStore α β :=
  (k, v, exp) :: st.filter (fun e => !decide (e.1 = k))

/-- Redis DEL: remove every binding of the key. -/
def kvDel [DecidableEq α] (st : KVStore α β) (k : α) : KVStore α β :=
  st.filter (fun e => !decide (e.1 = k))

/-- SESSION_EXPIRY_HOURS = 24, expressed in seconds. -/
def SESSION_EXPIRY_SECONDS : Nat := 24 * 3600

/-- TTL of the `user:{username}` cache entry written by `login`
(timedelta(hours=1)). -/
def USER_CACHE_TTL : Nat := 3600

/-- TTL of the `notes:{user_id}` cache entry written by `read_notes`
(timedelta(minutes=5)). -/
def NOTES_CACHE_TTL : Nat := 300

/-- The relational database (src/database.py tables that the handlers use). -/
structure DB where
  users : List User
  nextUserId : Nat
  notes : List Note
  nextNoteId : Nat
deriving Repr, DecidableEq

/-- Whole application state: the `redis_available` flag fixed at startup, the
relational store, and the Redis keyspaces used by main.py (`session:*`,
`user:*`, `notes:*`, `user_sessions:*`). -/
structure AppState where
  redisAvailable : Bool
  db : DB
  sessions : KVStore String SessionData
  userCache : KVStore String CachedUser
  notesCache : KVStore Nat (List NoteView)
  userSessions : KVStore Nat (List String)
deriving Repr, DecidableEq

/-- main.py `create_session`: store the session record under the fresh id
with the fixed TTL and register the id in the user's active-session set
(re-expired to the same TTL); if Redis is unavailable, store nothing. The
fresh uuid is the `session_id` argument. -/
def create_session (st : AppState) (now : Nat) (session_id : String)
    (user_id : Nat) (username : String) : String × AppState :=
  if st.redisAvailable then
    let data : SessionData :=
      { user_id := user_id, username := username,
        created_at := now, last_activity := now }
    let cur := (kvGet st.userSessions user_id now).getD []
    let cur2 := if session_id ∈ cur then cur else session_id :: cur
    (session_id,
      { st with
        sessions := kvSetex st.sessions session_id data
          (now + SESSION_EXPIRY_SECONDS),
        userSessions := kvSetex st.userSessions user_id cur2
          (now + SESSION_EXPIRY_SECONDS) })
  else (session_id, st)

/-- main.py `get_session`: `None` for a falsy id or when Redis is unavailable;
otherwise look the record up, and on a hit refresh `last_activity` and re-arm
the TTL to the full constant (refresh-on-read) before returning the data. -/
def get_session (st : AppState) (now : Nat) (session_id : String) :
    Option SessionData × AppState :=
  if session_id = "" ∨ st.redisAvailable = false then (none, st)
  else
    match kvGet st.sessions session_id now with
    | some data =>
      let data2 := { data with last_activity := now }
      (some data2,
        { st with
          sessions := kvSetex st.sessions session_id data2
            (now + SESSION_EXPIRY_SECONDS) })
    | none => (none, st)

/-- main.py `get_current_user`: read the `session_id` cookie; no cookie means
no user, otherwise resolve it through `get_session`. -/
def get_current_user (st : AppState) (now : Nat) (cookie : Option String) :
    Option SessionData × AppState :=
  match cookie with
  | none => (none, st)
  | some sid => get_session st now sid

/-- main.py `require_auth`: raise 401 when `get_current_user` found nobody. -/
def require_auth (st : AppState) (now : Nat) (cookie : Option String) :
    Except (Nat × String) SessionData × AppState :=
  match get_current_user st now cookie with
  | (none, st2) => (Except.error (401, "Authentication required"), st2)
  | (some u, st2) => (Except.ok u, st2)

/-- Outcome of POST /login/: a 303 redirect carrying the session cookie, or
an HTTPException with status and detail. -/
inductive LoginResult where
  | redirect303 (session_cookie : String)
  | httpError (status : Nat) (detail : String)
deriving Repr, DecidableEq

/-- The database half of main.py `login` (lines 204-245): SELECT the user row
by username, verify the password hash; on success re-populate the
`user:{username}` cache entry (1h TTL, Redis permitting) and create a
session; otherwise raise 401. -/
def login_db (verify : String → String → Bool) (st : AppState) (now : Nat)
    (new_sid username password : String) : LoginResult × AppState :=
  match st.db.users.find? (fun u => decide (u.username = username)) with
  | some u =>
    if verify password u.password_hash then
      let st1 :=
        if st.redisAvailable then
          { st with
            userCache := kvSetex st.userCache ("user:" ++ username)
              { id := u.id, username := u.username,
                password_hash := u.password_hash }
              (now + USER_CACHE_TTL) }
        else st
      let r := create_session st1 now new_sid u.id u.username
      (LoginResult.redirect303 r.1, r.2)
    else (LoginResult.httpError 401 "Invalid username or password", st)
  | none => (LoginResult.httpError 401 "Invalid username or password", st)

/-- main.py `login` (lines 173-245): 422 on a missing field; then try the
`user:{username}` cache entry (Redis permitting) and log straight in on a
cache hit with a verifying password; in every other case fall through to the
database path. -/
def login (verify : String → String → Bool) (st : AppState) (now : Nat)
    (new_sid username password : String) : LoginResult × AppState :=
  if username = "" ∨ password = "" then
    (LoginResult.httpError 422 "Username and password are required", st)
  else
    match (if st.redisAvailable then kvGet st.userCache ("user:" ++ username) now
           else none) with
    | some cu =>
      if verify password cu.password_hash then
        let r := create_session st now new_sid cu.id username
        (LoginResult.redirect303 r.1, r.2)
      else login_db verify st now new_sid username password
    | none => login_db verify st now new_sid username password

/-- Outcome of POST /register/: 200 with the generated user id, or an
HTTPException. -/
inductive RegisterResult where
  | success (user_id : Nat)
  | httpError (status : Nat) (detail : String)
deriving Repr, DecidableEq

/-- main.py `register` (lines 248-295): 422 on a missing field or a short
password; 400 when a row with the username already exists in the database
(the cache is not read); otherwise INSERT the user with the hashed password,
then DELETE the `user:{username}` cache entry (Redis permitting). -/
def register (hashPw : String → String) (st : AppState)
    (username password : String) : RegisterResult × AppState :=
  if username = "" ∨ password = "" then
    (RegisterResult.httpError 422 "Username and password are required", st)
  else if password.length < 6 then
    (RegisterResult.httpError 422 "Password must be at least 6 characters long", st)
  else
    match st.db.users.find? (fun u => decide (u.username = username)) with
    | some _ =>
      (RegisterResult.httpError 400 "Username already exists", st)
    | none =>
      let uid := st.db.nextUserId
      let db2 : DB :=
        { st.db with
          users := st.db.users ++
            [{ id := uid, username := username,
               password_hash := hashPw password }],
          nextUserId := uid + 1 }
      let st2 := { st with db := db2 }
      let st3 :=
        if st2.redisAvailable then
          { st2 with userCache := kvDel st2.userCache ("user:" ++ username) }
        else st2
      (RegisterResult.success uid, st3)

/-- Formalisation of the spec sentence behind claim C3, for comparison with
the code: the register existence check consults the cache first and then the
store, and reports a conflict when either knows the username. -/
def register_check_spec (st : AppState) (now : Nat) (username : String) : Bool :=
  (st.redisAvailable && (kvGet st.userCache ("user:" ++ username) now).isSome)
  || (st.db.users.find? (fun u => decide (u.username = username))).isSome

/-- Projection applied by `_get_notes_from_db` to each fetched row. -/
def Note.toView (n : Note) : NoteView :=
  { id := n.id, title := n.title, text := n.text,
    created_at := n.created_at, updated_at := n.updated_at }

/-- The ORDER BY created_at DESC relation: a row comes no later than another
when its creation time is no smaller. -/
def laterFirst (a b : Note) : Prop := b.created_at ≤ a.created_at

instance : DecidableRel laterFirst := fun a b =>
  Nat.decLe b.created_at a.created_at

instance : IsTotal Note laterFirst :=
  ⟨fun a b => Nat.le_total b.created_at a.created_at⟩

instance : IsTrans Note laterFirst :=
  ⟨fun _ _ _ h1 h2 => Nat.le_trans h2 h1⟩

/-- main.py `_get_notes_from_db` (lines 337-360): SELECT the rows with the
given user_id ordered by created_at DESC and project each row to a dict
without the user_id column. -/
def _get_notes_from_db (db : DB) (user_id : Nat) : List NoteView :=
  (((db.notes.filter (fun n => decide (n.user_id = user_id))).insertionSort
      laterFirst).map Note.toView)

/-- The body of main.py `read_notes` (lines 313-334) after authentication:
serve the cached `notes:{user_id}` list on a hit; on a miss (or without
Redis) read from the database, caching the result for 5 minutes when Redis
is available. -/
def read_notes_body (st : AppState) (now : Nat) (user : SessionData) :
    List NoteView × AppState :=
  if st.redisAvailable then
    match kvGet st.notesCache user.user_id now with
    | some notes => (notes, st)
    | none =>
      let notes := _get_notes_from_db st.db user.user_id
      (notes,
        { st with
          notesCache := kvSetex st.notesCache user.user_id notes
            (now + NOTES_CACHE_TTL) })
  else (_get_notes_from_db st.db user.user_id, st)

/-- GET /notes/ (main.py `read_notes`): authenticate, then serve the list. -/
def read_notes (st : AppState) (now : Nat) (cookie : Option String) :
    Except (Nat × String) (List NoteView) × AppState :=
  match require_auth st now cookie with
  | (Except.error e, st2) => (Except.error e, st2)
  | (Except.ok user, st2) =>
    let r := read_notes_body st2 now user
    (Except.ok r.1, r.2)

/-- Python whitespace as stripped by `str.strip()`. -/
def isPySpace (c : Char) : Bool :=
  c = ' ' || c = '\t' || c = '\n' || c = '\x0d' || c = '\x0b' || c = '\x0c'

/-- Python `s.strip()`: drop leading and trailing whitespace. -/
def pyStrip (s : String) : String :=
  String.mk (((s.data.dropWhile isPySpace).reverse.dropWhile isPySpace).reverse)

/-- Outcome of POST /notes/. -/
inductive CreateResult where
  | success (note_id : Nat)
  | httpError (status : Nat) (detail : String)
deriving Repr, DecidableEq

/-- The body of main.py `create_note` (lines 363-391) after authentication:
422 when the stripped title is empty, otherwise INSERT the note (title kept
verbatim, `text or ""` is the identity on strings) with both timestamps set
to now, then DELETE the `notes:{user_id}` cache entry (Redis permitting). -/
def create_note_body (st : AppState) (now : Nat) (user : SessionData)
    (title text : String) : CreateResult × AppState :=
  if pyStrip title = "" then
    (CreateResult.httpError 422 "Note title cannot be empty", st)
  else
    let uid := user.user_id
    let nid := st.db.nextNoteId
    let db2 : DB :=
      { st.db with
        notes := st.db.notes ++
          [{ id := nid, title := title, text := text, user_id := uid,
             created_at := now, updated_at := now }],
        nextNoteId := nid + 1 }
    let st2 := { st with db := db2 }
    let st3 :=
      if st2.redisAvailable then
        { st2 with notesCache := kvDel st2.notesCache uid }
      else st2
    (CreateResult.success nid, st3)

/-- POST /notes/ (main.py `create_note`): authenticate, then insert. -/
def create_note (st : AppState) (now : Nat) (cookie : Option String)
    (title text : String) : CreateResult × AppState :=
  match require_auth st now cookie with
  | (Except.error e, st2) => (CreateResult.httpError e.1 e.2, st2)
  | (Except.ok user, st2) => create_note_body st2 now user title text

/-- The PUT /notes/{id} request body: both fields optional (partial update). -/
structure NoteUpdatePatch where
  title : Option String
  text : Option String
deriving Repr, DecidableEq

/-- Outcome of PUT /notes/{id}. -/
inductive UpdateResult where
  | success
  | httpError (status : Nat) (detail : String)
deriving Repr, DecidableEq

/-- The body of main.py `update_note` (lines 394-454) after authentication:
SELECT the row's user_id by note id — 404 when no row exists, 403 when the
owner differs; then, only when the patch supplies at least one field, UPDATE
the supplied fields and updated_at = CURRENT_TIMESTAMP on every row with
that id; finally DELETE the `notes:{user_id}` cache entry (Redis
permitting) whether or not an UPDATE ran. -/
def update_note_body (st : AppState) (now : Nat) (user : SessionData)
    (note_id : Nat) (patch : NoteUpdatePatch) : UpdateResult × AppState :=
  match st.db.notes.find? (fun n => decide (n.id = note_id)) with
  | none => (UpdateResult.httpError 404 "Note not found", st)
  | some n =>
    if n.user_id ≠ user.user_id then
      (UpdateResult.httpError 403 "Access denied", st)
    else
      let db2 : DB :=
        if patch.title.isSome || patch.text.isSome then
          { st.db with
            notes := st.db.notes.map (fun m =>
              if m.id = note_id then
                { m with
                  title := patch.title.getD m.title,
                  text := patch.text.getD m.text,
                  updated_at := now }
              else m) }
        else st.db
      let st2 := { st with db := db2 }
      let st3 :=
        if st2.redisAvailable then
          { st2 with notesCache := kvDel st2.notesCache user.user_id }
        else st2
      (UpdateResult.success, st3)

/-- PUT /notes/{id} (main.py `update_note`): authenticate, then update. -/
def update_note (st : AppState) (now : Nat) (cookie : Option String)
    (note_id : Nat) (patch : NoteUpdatePatch) : UpdateResult × AppState :=
  match require_auth st now cookie with
  | (Except.error e, st2) => (UpdateResult.httpError e.1 e.2, st2)
  | (Except.ok user, st2) => update_note_body st2 now user note_id patch

/-- Outcome of DELETE /notes/{id}. -/
inductive DeleteResult where
  | success
  | httpError (status : Nat) (detail : String)
deriving Repr, DecidableEq

/-- The body of main.py `delete_note` (lines 457-485) after authentication:
DELETE the rows matching both the note id and the caller's user_id in one
combined WHERE clause; a zero rowcount — id absent or owned by someone
else — yields 404; otherwise commit and DELETE the `notes:{user_id}` cache
entry (Redis permitting). -/
def delete_note_body (st : AppState) (_now : Nat) (user : SessionData)
    (note_id : Nat) : DeleteResult × AppState :=
  let uid := user.user_id
  let remaining := st.db.notes.filter
    (fun n => !(decide (n.id = note_id) && decide (n.user_id = uid)))
  if st.db.notes.length - remaining.length = 0 then
    (DeleteResult.httpError 404 "Note not found or access denied", st)
  else
    let st2 := { st with db := { st.db with notes := remaining } }
    let st3 :=
      if st2.redisAvailable then
        { st2 with notesCache := kvDel st2.notesCache uid }
      else st2
    (DeleteResult.success, st3)

/-- DELETE /notes/{id} (main.py `delete_note`): authenticate, then delete. -/
def delete_note (st : AppState) (now : Nat) (cookie : Option String)
    (note_id : Nat) : DeleteResult × AppState :=
  match require_auth st now cookie with
  | (Except.error e, st2) => (DeleteResult.httpError e.1 e.2, st2)
  | (Except.ok user, st2) => delete_note_body st2 now user note_id

/-- Whether the pattern occurs at the head of the list. -/
def startsWithSub : List Char → List Char → Bool
  | [], _ => true
  | _ :: _, [] => false
  | a :: q, b :: s => decide (a = b) && startsWithSub q s

/-- Whether the pattern occurs as a contiguous substring of the list. -/
def containsSub (q : List Char) : List Char → Bool
  | [] => startsWithSub q []
  | b :: s => startsWithSub q (b :: s) || containsSub q s

/-- Modelled from the spec: the `search(user_id, query)` operation served at
GET /search/ is absent from src/main.py (only the frontend test's search
form references the route); per spec section 4.4 it returns the notes owned
by user_id whose title contains the query as a substring. -/
def search (db : DB) (user_id : Nat) (query : String) : List Note :=
  db.notes.filter
    (fun n => decide (n.user_id = user_id) && containsSub query.data n.title.data)

/-- Modelled from the spec: the GET /search/ endpoint requires
authentication (401 otherwise) and returns the filtered list with 200. -/
def search_endpoint (st : AppState) (now : Nat) (cookie : Option String)
    (query : String) : Except (Nat × String) (List Note) × AppState :=
  match require_auth st now cookie with
  | (Except.error e, st2) => (Except.error e, st2)
  | (Except.ok user, st2) => (Except.ok (search st2.db user.user_id query), st2)

/-! Concrete states used to instantiate the theorems below. -/

/-- A session record for user 7 issued at time 0. -/
def demoSession : SessionData :=
  { user_id := 7, username := "heidi", created_at := 0, last_activity := 0 }

/-- The identity produced by resolving `demoSession` at time 10. -/
def demoUser : SessionData :=
  { user_id := 7, username := "heidi", created_at := 0, last_activity := 10 }

/-- A note owned by user 7. -/
def demoNote1 : Note :=
  { id := 1, title := "Tasks", text := "buy milk", user_id := 7,
    created_at := 5, updated_at := 5 }

/-- A note owned by user 9. -/
def demoNote2 : Note :=
  { id := 2, title := "Other", text := "x", user_id := 9,
    created_at := 6, updated_at := 6 }

/-- A stale cached note list for user 7 that matches nothing in the store. -/
def demoStale : NoteView :=
  { id := 99, title := "stale", text := "stale", created_at := 0, updated_at := 0 }

/-- A database with one user and two notes. -/
def demoDB : DB :=
  { users := [{ id := 7, username := "heidi", password_hash := "H" }],
    nextUserId := 8, notes := [demoNote1, demoNote2], nextNoteId := 3 }

/-- Application state with Redis up, a live session for user 7 (expiring at
time 1000) and a stale cached note list for user 7. -/
def demoState : AppState :=
  { redisAvailable := true, db := demoDB,
    sessions := [("sid7", demoSession, 1000)],
    userCache := [],
    notesCache := [(7, [demoStale], 1000)],
    userSessions := [] }

/-- State `demoState` after `require_auth` resolved the cookie at time 10: the
session record was refreshed and its TTL re-armed. -/
def demoStateAuthed : AppState :=
  { demoState with sessions := [("sid7", demoUser, 86410)] }

/-- State `demoState` with the Redis flag down. -/
def demoStateNoRedis : AppState :=
  { demoState with redisAvailable := false }

/-- A state whose cache knows "alice" although the store has no users at
all; used against claim C3. -/
def regState : AppState :=
  { redisAvailable := true,
    db := { users := [], nextUserId := 1, notes := [], nextNoteId := 1 },
    sessions := [],
    userCache := [("user:alice",
      { id := 3, username := "alice", password_hash := "A" }, 100)],
    notesCache := [],
    userSessions := [] }

/-- Password verification instance used for concrete witnesses: a password
verifies against a hash exactly when the two strings are equal. -/
def eqVerify : String → String → Bool := fun p h => decide (p = h)

/-- Password hashing instance used for concrete witnesses. -/
def idHash : String → String := fun p => p

/-! Shared lemmas about the store and the authentication gate. -/

/-- Deleting a key makes every later read of it miss. -/
theorem kvGet_kvDel_self [DecidableEq α] (st : KVStore α β) (k : α) (now : Nat) :
    kvGet (kvDel st k) k now = none := by
  unfold kvGet kvDel
  have h : (st.filter (fun e => !decide (e.1 = k))).find?
      (fun e => decide (e.1 = k)) = none := by
    rw [List.find?_eq_none]
    intro x hx
    have hk := List.of_mem_filter hx
    simpa using hk
  rw [h]

/-- Resolution via `get_session` touches only the session keyspace. -/
theorem get_session_preserves (st : AppState) (now : Nat) (sid : String) :
    ((get_session st now sid).2).db = st.db ∧
    ((get_session st now sid).2).redisAvailable = st.redisAvailable ∧
    ((get_session st now sid).2).notesCache = st.notesCache := by
  unfold get_session
  split
  · exact ⟨rfl, rfl, rfl⟩
  · cases kvGet st.sessions sid now <;> exact ⟨rfl, rfl, rfl⟩

/-- Authentication via `require_auth` touches only the session keyspace. -/
theorem require_auth_preserves (st : AppState) (now : Nat) (cookie : Option String) :
    ((require_auth st now cookie).2).db = st.db ∧
    ((require_auth st now cookie).2).redisAvailable = st.redisAvailable ∧
    ((require_auth st now cookie).2).notesCache = st.notesCache := by
  unfold require_auth get_current_user
  cases cookie with
  | none => exact ⟨rfl, rfl, rfl⟩
  | some sid =>
    have h := get_session_preserves st now sid
    cases hg : get_session st now sid with
    | mk o st2 =>
      rw [hg] at h
      simp only [hg]
      cases o <;> exact h

/-- A successful authentication turns each endpoint into its body applied to
the post-authentication state. -/
theorem create_note_eq_body (st : AppState) (now : Nat) (cookie : Option String)
    (user : SessionData) (st1 : AppState)
    (h : require_auth st now cookie = (Except.ok user, st1))
    (title text : String) :
    create_note st now cookie title text = create_note_body st1 now user title text := by
  unfold create_note
  rw [h]

/-- Endpoint/body correspondence for PUT /notes/{id}. -/
theorem update_note_eq_body (st : AppState) (now : Nat) (cookie : Option String)
    (user : SessionData) (st1 : AppState)
    (h : require_auth st now cookie = (Except.ok user, st1))
    (note_id : Nat) (patch : NoteUpdatePatch) :
    update_note st now cookie note_id patch = update_note_body st1 now user note_id patch := by
  unfold update_note
  rw [h]

/-- Endpoint/body correspondence for DELETE /notes/{id}. -/
theorem delete_note_eq_body (st : AppState) (now : Nat) (cookie : Option String)
    (user : SessionData) (st1 : AppState)
    (h : require_auth st now cookie = (Except.ok user, st1))
    (note_id : Nat) :
    delete_note st now cookie note_id = delete_note_body st1 now user note_id := by
  unfold delete_note
  rw [h]

/-- C5: with the session store reachable and a non-empty session id (every id
issued by `create_session` is a uuid, hence non-empty), `get_session`
returns the stored identity with `last_activity` updated and re-arms the
record's TTL to the full constant `SESSION_EXPIRY_SECONDS` when the record
exists; when the record is absent or expired it returns `none` and leaves
the state untouched. The function is total and returns an `Option`, so no
error can be raised. -/
theorem get_session_refresh_on_read (st : AppState) (now : Nat) (sid : String)
    (havail : st.redisAvailable = true) (hsid : sid ≠ "") :
    (∀ d, kvGet st.sessions sid now = some d →
      get_session st now sid =
        (some { d with last_activity := now },
          { st with sessions := (kvSetex st.sessions sid
              ({ d with last_activity := now }) (now + SESSION_EXPIRY_SECONDS)) })) ∧
    (kvGet st.sessions sid now = none → get_session st now sid = (none, st)) := by
  constructor
  · intro d hd
    unfold get_session
    rw [if_neg (by simp [hsid, havail])]
    rw [hd]
  · intro hd
    unfold get_session
    rw [if_neg (by simp [hsid, havail])]
    rw [hd]

/-- Witness for C5 at a concrete live session. -/
theorem get_session_refresh_on_read_witness :
    get_session demoState 10 "sid7" =
      (some demoUser,
        { demoState with sessions := kvSetex demoState.sessions ("sid7") demoUser 86410 }) := by
  have h := (get_session_refresh_on_read demoState 10 "sid7" (by decide)
    (by decide)).1 demoSession (by decide)
  exact h

/-- C8: when the session store is unavailable (`redis_available = false`),
`get_session` resolves every session id to `none` leaving the state
untouched, `require_auth` therefore rejects every request as unauthenticated
with 401 (never a 5xx-class failure), and `create_session` degrades to
returning the fresh id without storing anything; no operation raises an
error because of the session store. -/
theorem redis_unavailable_degrades_to_unauthenticated (st : AppState)
    (h : st.redisAvailable = false) (now : Nat) :
    (∀ sid, get_session st now sid = (none, st)) ∧
    (∀ cookie, require_auth st now cookie =
      (Except.error (401, "Authentication required"), st)) ∧
    (∀ sid uid uname, create_session st now sid uid uname = (sid, st)) := by
  have hget : ∀ sid, get_session st now sid = (none, st) := by
    intro sid
    unfold get_session
    rw [if_pos (Or.inr h)]
  refine ⟨hget, ?_, ?_⟩
  · intro cookie
    cases cookie with
    | none => rfl
    | some sid =>
      simp only [require_auth, get_current_user]
      rw [hget sid]
  · intro sid uid uname
    unfold create_session
    rw [if_neg (by simp [h])]

/-- Witness for C8 at a concrete state with the store down. -/
theorem redis_unavailable_degrades_to_unauthenticated_witness :
    get_session demoStateNoRedis 10 "sid7" = (none, demoStateNoRedis) ∧
    require_auth demoStateNoRedis 10 (some ("sid7")) =
      (Except.error (401, "Authentication required"), demoStateNoRedis) ∧
    create_session demoStateNoRedis 10 "fresh" 7 "heidi" = ("fresh", demoStateNoRedis) := by
  have h := redis_unavailable_degrades_to_unauthenticated demoStateNoRedis (by decide) 10
  exact ⟨h.1 ("sid7"), h.2.1 (some ("sid7")), h.2.2 ("fresh") 7 "heidi"⟩

/-- The HTTP-visible outcome of `register` depends only on the inputs and the
user table, never on the cache. -/
theorem register_fst (hashPw : String → String) (st : AppState)
    (username password : String) :
    (register hashPw st username password).1 =
      (if username = "" ∨ password = "" then
        RegisterResult.httpError 422 "Username and password are required"
      else if password.length < 6 then
        RegisterResult.httpError 422 "Password must be at least 6 characters long"
      else
        match st.db.users.find? (fun u => decide (u.username = username)) with
        | some _ => RegisterResult.httpError 400 "Username already exists"
        | none => RegisterResult.success st.db.nextUserId) := by
  unfold register
  split
  · rfl
  · split
    · rfl
    · cases st.db.users.find? (fun u => decide (u.username = username)) <;> simp

/-- C4: whenever a login attempt with non-empty credentials does not
succeed — whether the username is unknown to the user table or the password
fails verification, and regardless of the cache contents — the outcome is
exactly the single response `401 "Invalid username or password"` with the
state unchanged; the two failure cases are therefore indistinguishable to
the caller. -/
theorem login_failure_response_uniform (verify : String → String → Bool)
    (st : AppState) (now : Nat) (new_sid username password : String)
    (hu : username ≠ "") (hp : password ≠ "") :
    (∃ c st2, login verify st now new_sid username password =
      (LoginResult.redirect303 c, st2)) ∨
    login verify st now new_sid username password =
      (LoginResult.httpError 401 "Invalid username or password", st) := by
  have hdb : (∃ c st2, login_db verify st now new_sid username password =
      (LoginResult.redirect303 c, st2)) ∨
      login_db verify st now new_sid username password =
        (LoginResult.httpError 401 "Invalid username or password", st) := by
    unfold login_db
    split
    · split
      · left
        exact ⟨_, _, rfl⟩
      · right
        rfl
    · right
      rfl
  unfold login
  rw [if_neg (by simp [hu, hp])]
  split
  · split
    · left
      exact ⟨_, _, rfl⟩
    · exact hdb
  · exact hdb

/-- Witness for C4: a wrong password against a known, uncached user. -/
theorem login_failure_response_uniform_witness :
    (∃ c st2, login eqVerify demoState 10 "ns" "heidi" "wrong" =
      (LoginResult.redirect303 c, st2)) ∨
    login eqVerify demoState 10 "ns" "heidi" "wrong" =
      (LoginResult.httpError 401 "Invalid username or password", demoState) :=
  login_failure_response_uniform eqVerify demoState 10 "ns" "heidi" "wrong"
    (by decide) (by decide)

/-- C3 counterexample: in `regState` the cache knows the username "alice"
(so a cache-consulting existence check reports a conflict) while the user
table is empty, yet `register` succeeds — the code never consults the cache
for the existence check, contradicting the claim as stated. -/
theorem register_ignores_cache_counterexample :
    register_check_spec regState 0 "alice" = true ∧
    (register idHash regState ("alice") "secret1").1 = RegisterResult.success 1 := by
  constructor
  · rfl
  · rfl

/-- C3 amended: `register` fails with the 400 conflict exactly when the
username already exists in the user table of the store; the cache plays no
part in the check — the HTTP outcome is identical under arbitrary cache
contents — and the cache entry for the username is only invalidated after a
successful insert. -/
theorem register_conflict_iff_username_in_store (hashPw : String → String)
    (st : AppState) (username password : String)
    (hu : username ≠ "") (hp : password ≠ "") (hlen : ¬ password.length < 6) :
    ((register hashPw st username password).1 =
        RegisterResult.httpError 400 "Username already exists" ↔
      ∃ u ∈ st.db.users, u.username = username) ∧
    (∀ c1 c2 : KVStore String CachedUser,
      (register hashPw { st with userCache := c1 } username password).1 =
      (register hashPw { st with userCache := c2 } username password).1) := by
  constructor
  · rw [register_fst]
    rw [if_neg (by simp [hu, hp]), if_neg hlen]
    cases hf : st.db.users.find? (fun u => decide (u.username = username)) with
    | some u =>
      simp only [iff_true_intro rfl, true_iff]
      refine ⟨u, List.mem_of_find?_eq_some hf, ?_⟩
      have := List.find?_some hf
      simpa using this
    | none =>
      constructor
      · intro h
        exact absurd h (by simp)
      · rintro ⟨u, hm, hname⟩
        have := List.find?_eq_none.mp hf u hm
        simp [hname] at this
  · intro c1 c2
    rw [register_fst, register_fst]

/-- Witness for C3's amended theorem: registering "bob" against `regState`
(no users in the store) does not conflict, cache notwithstanding. -/
theorem register_conflict_iff_username_in_store_witness :
    ¬ ((register idHash regState ("bob") "secret1").1 =
        RegisterResult.httpError 400 "Username already exists") := by
  have h := (register_conflict_iff_username_in_store idHash regState ("bob") "secret1"
    (by decide) (by decide) (by decide)).1
  intro hc
  obtain ⟨u, hm, _⟩ := h.mp hc
  simp [regState] at hm

/-- C1: when an authenticated user is not the owner of an existing note (the
note's owner and the caller are distinct users), updating the note fails
with 403 "Access denied", deleting it fails with 404 "Note not found or
access denied", and in both cases the database — hence every field of the
note (title, text, owner, created_at, updated_at) — is left unmodified. -/
theorem ownership_violation_leaves_note_unchanged
    (st : AppState) (now : Nat) (cookie : Option String)
    (user : SessionData) (st1 : AppState)
    (hauth : require_auth st now cookie = (Except.ok user, st1))
    (n : Note)
    (hn : st.db.notes.find? (fun m => decide (m.id = n.id)) = some n)
    (hnodup : (st.db.notes.map Note.id).Nodup)
    (howner : n.user_id ≠ user.user_id)
    (patch : NoteUpdatePatch) :
    update_note st now cookie n.id patch =
      (UpdateResult.httpError 403 "Access denied", st1) ∧
    delete_note st now cookie n.id =
      (DeleteResult.httpError 404 "Note not found or access denied", st1) ∧
    st1.db = st.db := by
  have hdb : st1.db = st.db := by
    have h := require_auth_preserves st now cookie
    rw [hauth] at h
    exact h.1
  refine ⟨?_, ?_, hdb⟩
  · rw [update_note_eq_body st now cookie user st1 hauth]
    unfold update_note_body
    simp only [hdb, hn]
    rw [if_pos howner]
  · rw [delete_note_eq_body st now cookie user st1 hauth]
    unfold delete_note_body
    simp only [hdb]
    have hkeep : st.db.notes.filter
        (fun m => !(decide (m.id = n.id) && decide (m.user_id = user.user_id))) =
        st.db.notes := by
      apply List.filter_eq_self.mpr
      intro m hm
      by_cases hid : m.id = n.id
      · have hmem : n ∈ st.db.notes := List.mem_of_find?_eq_some hn
        have hmn : m = n := List.inj_on_of_nodup_map hnodup hm hmem hid
        subst hmn
        simp [howner]
      · simp [hid]
    rw [hkeep]
    simp

/-- Witness for C1: user 7 attacks the note owned by user 9. -/
theorem ownership_violation_leaves_note_unchanged_witness :
    update_note demoState 10 (some ("sid7")) 2 ⟨some ("t"), none⟩ =
      (UpdateResult.httpError 403 "Access denied", demoStateAuthed) ∧
    delete_note demoState 10 (some ("sid7")) 2 =
      (DeleteResult.httpError 404 "Note not found or access denied", demoStateAuthed) ∧
    demoStateAuthed.db = demoState.db := by
  have h := ownership_violation_leaves_note_unchanged demoState 10 (some ("sid7"))
    demoUser demoStateAuthed (by rfl) demoNote2 (by decide) (by decide)
    (by decide) ⟨some ("t"), none⟩
  exact h

/-- C7 counterexample: at time 10, the owner updates their note (stored with
updated_at = 5) with the empty patch; the call reports success, yet the
note — updated_at included — is left exactly as it was, so the claim's
"refreshes the note's updated_at ... for every patch including the empty
one" is false on the code. -/
theorem empty_patch_does_not_refresh_updated_at :
    (update_note demoState 10 (some ("sid7")) 1 { title := none, text := none }).1 =
      UpdateResult.success ∧
    ((update_note demoState 10 (some ("sid7")) 1
        { title := none, text := none }).2).db.notes = [demoNote1, demoNote2] ∧
    demoNote1.updated_at = 5 ∧ (5 : Nat) ≠ 10 :=
  ⟨rfl, rfl, rfl, by decide⟩

/-- C7 amended: for an existing note owned by the caller, `update_note`
succeeds; when the patch supplies at least one field it applies exactly the
supplied fields — unsupplied fields keep their previous values, id, owner
and created_at are untouched — and refreshes updated_at to the current
time, on every row carrying the note id; when the patch supplies no field
the call still succeeds but the notes table (updated_at included) is left
completely unchanged. -/
theorem update_applies_supplied_fields
    (st : AppState) (now : Nat) (cookie : Option String)
    (user : SessionData) (st1 : AppState)
    (hauth : require_auth st now cookie = (Except.ok user, st1))
    (note_id : Nat) (n : Note)
    (hn : st.db.notes.find? (fun m => decide (m.id = note_id)) = some n)
    (howner : n.user_id = user.user_id)
    (patch : NoteUpdatePatch) :
    (update_note st now cookie note_id patch).1 = UpdateResult.success ∧
    ((patch.title.isSome || patch.text.isSome) = true →
      ((update_note st now cookie note_id patch).2).db.notes.length =
        st.db.notes.length ∧
      ∀ i, (hi : i < st.db.notes.length) →
        ((st.db.notes[i].id ≠ note_id →
          ((update_note st now cookie note_id patch).2).db.notes[i]? =
            some st.db.notes[i]) ∧
         (st.db.notes[i].id = note_id →
          ∃ m2, ((update_note st now cookie note_id patch).2).db.notes[i]? =
              some m2 ∧
            m2.id = st.db.notes[i].id ∧
            m2.user_id = st.db.notes[i].user_id ∧
            m2.created_at = st.db.notes[i].created_at ∧
            m2.updated_at = now ∧
            m2.title = patch.title.getD st.db.notes[i].title ∧
            m2.text = patch.text.getD st.db.notes[i].text))) ∧
    (patch.title = none → patch.text = none →
      ((update_note st now cookie note_id patch).2).db.notes = st.db.notes) := by
  have hdb : st1.db = st.db := by
    have h := require_auth_preserves st now cookie
    rw [hauth] at h
    exact h.1
  have hbody : update_note st now cookie note_id patch =
      update_note_body st1 now user note_id patch :=
    update_note_eq_body st now cookie user st1 hauth note_id patch
  have hkey : (update_note_body st1 now user note_id patch).1 =
      UpdateResult.success ∧
      ((update_note_body st1 now user note_id patch).2).db.notes =
        (if (patch.title.isSome || patch.text.isSome) = true then
          st.db.notes.map (fun m =>
            if m.id = note_id then
              { m with
                title := patch.title.getD m.title,
                text := patch.text.getD m.text,
                updated_at := now }
            else m)
        else st.db.notes) := by
    unfold update_note_body
    simp only [hdb, hn]
    rw [if_neg (by simp [howner])]
    refine ⟨rfl, ?_⟩
    cases hr : st1.redisAvailable with
    | true =>
      simp [hr]
      split <;> rfl
    | false =>
      simp [hr]
      split <;> rfl
  refine ⟨?_, ?_, ?_⟩
  · rw [hbody]
    exact hkey.1
  · intro hne
    rw [hbody, hkey.2, if_pos hne]
    refine ⟨by simp, ?_⟩
    intro i hi
    have hlen : i < (st.db.notes.map (fun m =>
        if m.id = note_id then
          { m with
            title := patch.title.getD m.title,
            text := patch.text.getD m.text,
            updated_at := now }
        else m)).length := by simpa using hi
    constructor
    · intro hid
      rw [List.getElem?_map, List.getElem?_eq_getElem hi]
      simp [hid]
    · intro hid
      rw [List.getElem?_map, List.getElem?_eq_getElem hi]
      simp only [Option.map_some']
      refine ⟨_, rfl, ?_⟩
      simp [hid]
  · intro ht hx
    rw [hbody, hkey.2, if_neg (by simp [ht, hx])]

/-- Witness for C7's amended theorem: the owner patches only the title of
their note. -/
theorem update_applies_supplied_fields_witness :
    (update_note demoState 10 (some ("sid7")) 1
      { title := some ("New"), text := none }).1 = UpdateResult.success := by
  have h := update_applies_supplied_fields demoState 10 (some ("sid7"))
    demoUser demoStateAuthed (by rfl) 1 demoNote1 (by decide) (by decide)
    { title := some ("New"), text := none }
  exact h.1

/-- C10: an authenticated POST /notes/ whose title is empty or consists only
of whitespace (so that Python's `title.strip()` is falsy) fails with
422 "Note title cannot be empty" and inserts nothing: the database is the
one produced by authentication alone, whose notes (and whole content) equal
the original. -/
theorem blank_title_rejected_422
    (st : AppState) (now : Nat) (cookie : Option String)
    (user : SessionData) (st1 : AppState)
    (hauth : require_auth st now cookie = (Except.ok user, st1))
    (title text : String) (hws : title.data.all isPySpace = true) :
    create_note st now cookie title text =
      (CreateResult.httpError 422 "Note title cannot be empty", st1) ∧
    st1.db = st.db := by
  have hstrip : pyStrip title = "" := by
    unfold pyStrip
    have h1 : title.data.dropWhile isPySpace = [] :=
      List.dropWhile_eq_nil_iff.mpr (by simpa [List.all_eq_true] using hws)
    rw [h1]
    rfl
  have hdb : st1.db = st.db := by
    have h := require_auth_preserves st now cookie
    rw [hauth] at h
    exact h.1
  refine ⟨?_, hdb⟩
  rw [create_note_eq_body st now cookie user st1 hauth]
  unfold create_note_body
  rw [if_pos hstrip]

/-- Witness for C10: a title of three spaces is rejected. -/
theorem blank_title_rejected_422_witness :
    create_note demoState 10 (some ("sid7")) "   " "body" =
      (CreateResult.httpError 422 "Note title cannot be empty", demoStateAuthed) := by
  have h := blank_title_rejected_422 demoState 10 (some ("sid7")) demoUser
    demoStateAuthed (by rfl) "   " "body" (by decide)
  exact h.1

/-- After a cache miss (or without Redis), reading the note list serves the
fresh database contents. -/
theorem read_notes_body_fresh (st : AppState) (now : Nat) (user : SessionData)
    (h : st.redisAvailable = true → kvGet st.notesCache user.user_id now = none) :
    (read_notes_body st now user).1 = _get_notes_from_db st.db user.user_id := by
  unfold read_notes_body
  cases hr : st.redisAvailable with
  | false => simp [hr]
  | true => simp [hr, h hr]

/-- A successful create leaves the Redis flag alone and clears the caller's
note-list cache entry (when Redis is up). -/
theorem create_note_body_success_cache (st : AppState) (now : Nat)
    (user : SessionData) (title text : String) (nid : Nat) (st2 : AppState)
    (h : create_note_body st now user title text = (CreateResult.success nid, st2)) :
    st2.redisAvailable = st.redisAvailable ∧
    (st.redisAvailable = true →
      st2.notesCache = kvDel st.notesCache user.user_id) := by
  unfold create_note_body at h
  split at h
  · exact absurd h (by simp)
  · simp only [Prod.mk.injEq] at h
    obtain ⟨-, h2⟩ := h
    subst h2
    cases hr : st.redisAvailable with
    | true => refine ⟨?_, ?_⟩ <;> simp [hr]
    | false => refine ⟨?_, ?_⟩ <;> simp [hr]

/-- A successful update leaves the Redis flag alone and clears the caller's
note-list cache entry (when Redis is up). -/
theorem update_note_body_success_cache (st : AppState) (now : Nat)
    (user : SessionData) (note_id : Nat) (patch : NoteUpdatePatch) (st2 : AppState)
    (h : update_note_body st now user note_id patch = (UpdateResult.success, st2)) :
    st2.redisAvailable = st.redisAvailable ∧
    (st.redisAvailable = true →
      st2.notesCache = kvDel st.notesCache user.user_id) := by
  unfold update_note_body at h
  split at h
  · exact absurd h (by simp)
  · split at h
    · exact absurd h (by simp)
    · simp only [Prod.mk.injEq] at h
      obtain ⟨-, h2⟩ := h
      subst h2
      cases hr : st.redisAvailable with
      | true => refine ⟨?_, ?_⟩ <;> simp [hr]
      | false => refine ⟨?_, ?_⟩ <;> simp [hr]

/-- A successful delete leaves the Redis flag alone and clears the caller's
note-list cache entry (when Redis is up). -/
theorem delete_note_body_success_cache (st : AppState) (now : Nat)
    (user : SessionData) (note_id : Nat) (st2 : AppState)
    (h : delete_note_body st now user note_id = (DeleteResult.success, st2)) :
    st2.redisAvailable = st.redisAvailable ∧
    (st.redisAvailable = true →
      st2.notesCache = kvDel st.notesCache user.user_id) := by
  unfold delete_note_body at h
  dsimp only at h
  split at h
  · exact absurd h (by simp)
  · simp only [Prod.mk.injEq] at h
    obtain ⟨-, h2⟩ := h
    subst h2
    cases hr : st.redisAvailable with
    | true => refine ⟨?_, ?_⟩ <;> simp [hr]
    | false => refine ⟨?_, ?_⟩ <;> simp [hr]

/-- C6: after any successful note create, update, or delete by the
authenticated user, the next read of that user's note list serves the fresh
database contents — the change is reflected — no matter what (possibly
stale) `notes:{user_id}` cache entry existed before the mutation, because
every mutation invalidates that cache entry. -/
theorem mutation_invalidates_note_list_cache
    (st : AppState) (now : Nat) (cookie : Option String)
    (user : SessionData) (st1 : AppState)
    (hauth : require_auth st now cookie = (Except.ok user, st1)) :
    (∀ title text nid st2,
      create_note st now cookie title text = (CreateResult.success nid, st2) →
      ∀ now2, (read_notes_body st2 now2 user).1 =
        _get_notes_from_db st2.db user.user_id) ∧
    (∀ note_id patch st2,
      update_note st now cookie note_id patch = (UpdateResult.success, st2) →
      ∀ now2, (read_notes_body st2 now2 user).1 =
        _get_notes_from_db st2.db user.user_id) ∧
    (∀ note_id st2,
      delete_note st now cookie note_id = (DeleteResult.success, st2) →
      ∀ now2, (read_notes_body st2 now2 user).1 =
        _get_notes_from_db st2.db user.user_id) := by
  refine ⟨?_, ?_, ?_⟩
  · intro title text nid st2 h now2
    rw [create_note_eq_body st now cookie user st1 hauth] at h
    have hc := create_note_body_success_cache st1 now user title text nid st2 h
    apply read_notes_body_fresh
    intro hr2
    rw [hc.2 (hc.1.symm.trans hr2)]
    exact kvGet_kvDel_self _ _ _
  · intro note_id patch st2 h now2
    rw [update_note_eq_body st now cookie user st1 hauth] at h
    have hc := update_note_body_success_cache st1 now user note_id patch st2 h
    apply read_notes_body_fresh
    intro hr2
    rw [hc.2 (hc.1.symm.trans hr2)]
    exact kvGet_kvDel_self _ _ _
  · intro note_id st2 h now2
    rw [delete_note_eq_body st now cookie user st1 hauth] at h
    have hc := delete_note_body_success_cache st1 now user note_id st2 h
    apply read_notes_body_fresh
    intro hr2
    rw [hc.2 (hc.1.symm.trans hr2)]
    exact kvGet_kvDel_self _ _ _

/-- Witness for C6: user 7 creates a note while a stale cache entry for
user 7 exists; the next read serves the fresh database list. -/
theorem mutation_invalidates_note_list_cache_witness :
    (read_notes_body ((create_note demoState 10 (some ("sid7")) "T2" "B2").2)
        20 demoUser).1 =
      _get_notes_from_db ((create_note demoState 10 (some ("sid7")) "T2" "B2").2).db 7 := by
  have h := (mutation_invalidates_note_list_cache demoState 10 (some ("sid7"))
    demoUser demoStateAuthed (by rfl)).1 "T2" "B2" 3
    ((create_note demoState 10 (some ("sid7")) "T2" "B2").2) (by rfl) 20
  exact h

/-- C9: `_get_notes_from_db` returns exactly the notes whose owner is the
given user — every returned row is the projection of an owned note and
every owned note is returned — and the result is ordered most-recent-first
(creation times are non-increasing along the list). -/
theorem notes_list_owned_and_ordered (db : DB) (user_id : Nat) :
    (∀ v, v ∈ _get_notes_from_db db user_id ↔
      ∃ n, n ∈ db.notes ∧ n.user_id = user_id ∧ Note.toView n = v) ∧
    (_get_notes_from_db db user_id).Pairwise
      (fun a b => b.created_at ≤ a.created_at) := by
  constructor
  · intro v
    unfold _get_notes_from_db
    rw [List.mem_map]
    constructor
    · rintro ⟨n, hn, hv⟩
      rw [List.mem_insertionSort, List.mem_filter] at hn
      exact ⟨n, hn.1, by simpa using hn.2, hv⟩
    · rintro ⟨n, hm, hp, hv⟩
      refine ⟨n, ?_, hv⟩
      rw [List.mem_insertionSort, List.mem_filter]
      exact ⟨hm, by simpa using hp⟩
  · unfold _get_notes_from_db
    rw [List.pairwise_map]
    exact List.sorted_insertionSort laterFirst
      (db.notes.filter (fun n => decide (n.user_id = user_id)))

/-- A list starts with the pattern exactly when it is the pattern followed by
some tail. -/
theorem startsWithSub_iff (q s : List Char) :
    startsWithSub q s = true ↔ ∃ t, s = q ++ t := by
  induction q generalizing s with
  | nil => simp [startsWithSub]
  | cons a q ih =>
    cases s with
    | nil => simp [startsWithSub]
    | cons b s2 =>
      simp only [startsWithSub, Bool.and_eq_true, decide_eq_true_eq, ih,
        List.cons_append]
      constructor
      · rintro ⟨rfl, t, rfl⟩
        exact ⟨t, rfl⟩
      · rintro ⟨t, ht⟩
        injection ht with h1 h2
        exact ⟨h1.symm, t, h2⟩

/-- The Boolean substring test agrees with the existence of a decomposition
around the pattern. -/
theorem containsSub_iff (q s : List Char) :
    containsSub q s = true ↔ ∃ pre post, s = pre ++ q ++ post := by
  induction s with
  | nil =>
    simp [containsSub, startsWithSub_iff, List.append_eq_nil]
  | cons b s2 ih =>
    simp only [containsSub, Bool.or_eq_true, startsWithSub_iff, ih]
    constructor
    · rintro (⟨t, ht⟩ | ⟨pre, post, hp⟩)
      · exact ⟨[], t, by simpa using ht⟩
      · exact ⟨b :: pre, post, by simp [hp]⟩
    · rintro ⟨pre, post, hp⟩
      cases pre with
      | nil =>
        left
        exact ⟨post, by simpa using hp⟩
      | cons c pre2 =>
        right
        simp only [List.cons_append] at hp
        injection hp with h1 h2
        exact ⟨pre2, post, h2⟩

/-- C2: the spec-modelled `search(user_id, query)` returns exactly the notes
owned by user_id whose title contains the query as a substring, and the
GET /search/ endpoint yields 401 without authentication and 200 (Except.ok)
with the filtered list of the authenticated user when the session
resolves. -/
theorem search_returns_owned_matching_titles (db : DB) (user_id : Nat)
    (q : String) (st : AppState) (now : Nat) (cookie : Option String) :
    (∀ n, n ∈ search db user_id q ↔
      n ∈ db.notes ∧ n.user_id = user_id ∧
        ∃ pre post, n.title.data = pre ++ q.data ++ post) ∧
    search_endpoint st now none q =
      (Except.error (401, "Authentication required"), st) ∧
    (∀ user st1, require_auth st now cookie = (Except.ok user, st1) →
      search_endpoint st now cookie q =
        (Except.ok (search st1.db user.user_id q), st1) ∧ st1.db = st.db) := by
  refine ⟨?_, rfl, ?_⟩
  · intro n
    unfold search
    rw [List.mem_filter]
    simp [containsSub_iff, and_assoc]
  · intro user st1 hauth
    have hdb : st1.db = st.db := by
      have h := require_auth_preserves st now cookie
      rw [hauth] at h
      exact h.1
    refine ⟨?_, hdb⟩
    unfold search_endpoint
    rw [hauth]

/-- Witness for C2: user 7 searches for "as"; the endpoint authenticates and
returns exactly the owned note whose title "Tasks" contains "as". -/
theorem search_returns_owned_matching_titles_witness :
    search_endpoint demoState 10 (some ("sid7")) "as" =
      (Except.ok (search demoState.db 7 "as"), demoStateAuthed) ∧
    search demoState.db 7 "as" = [demoNote1] := by
  have h := ((search_returns_owned_matching_titles demoState.db 7 "as"
    demoState 10 (some ("sid7"))).2.2 demoUser demoStateAuthed (by rfl)).1
  exact ⟨h, by rfl⟩

end WebNotes
